import Mathlib

/-!
# BuildCasa Get Offer Flow — verification development

A shallow embedding of the Get Offer flow code (src/index.js and the modular
build in src/unnamed/part_000) and proofs of the specified properties.

Modelling conventions:
* JS strings are `String`; JS string truthiness is `≠ ""`.
* An optional JS object field (`{}` vs a populated object) is an `Option`.
* A JS function that can throw an uncaught error returns `Option` (`none` = throw).
* Asynchronous service calls are passed in as `Except Unit` oracle arguments,
  and every network request actually issued is recorded in a `NetworkCall` list.
* Every `trackEvent` call site is one `TrackedEvent` constructor.  Payload
  properties are carried only where a verified property mentions them
  (the invalid-transition diagnostic, the address-selected event); the
  remaining payloads are presentation/analytics data not referenced by any
  property proved here.
* Pure-UI fields (submit button text) are elided.
-/

/-- One record sent to the analytics sink (`trackEvent` in src/index.js). -/
inductive TrackedEvent where
  | invalidTransition (current_state : String) (event : String)
  | addressSelected (address : String) (context : String) (ll_uuid : String)
  | addressSubmitted
  | addressSubmissionSucceeded
  | addressSubmissionFailed
  | contactSubmitted
  | contactSubmissionSucceeded
  | contactSubmissionFailed
  | modalFlowOpened
  | modalClosed
  deriving DecidableEq, Repr

/-- A network request issued by the flow code. -/
inductive NetworkCall where
  | fetchAddressMatches
  | fetchParcelDetails
  | fetchEstimateResults
  | createLead
  deriving DecidableEq, Repr

/-!
## State machine (createFlowStateMachine, src/index.js lines 675-820)

The JS transition table is built from object literals merged with spread
syntax; we embed each `transitions` object as an association list and the
`states` object as an association list from state name to transition list.
-/

/-- Shared transition fragment `submitAddressTransition`. -/
def submitAddressTransition : List (String × String) :=
  [("SUBMIT_ADDRESS", "addressFormProcessing")]

/-- Shared transition fragment `modalSubmitAddressTransition`. -/
def modalSubmitAddressTransition : List (String × String) :=
  [("SUBMIT_ADDRESS", "modalAddressFormProcessing")]

/-- Shared transition fragment `submitContactTransition`. -/
def submitContactTransition : List (String × String) :=
  [("SUBMIT_CONTACT", "contactFormProcessing")]

/-- Shared transition fragment `exitTransition`. -/
def exitTransition : List (String × String) :=
  [("EXIT", "default")]

/-- The `states` object of the flow state machine: each state's `transitions`
object, with the spread-composed shared fragments. -/
def machineStates : List (String × List (String × String)) :=
  [ ("default",
      submitAddressTransition ++ [("START_MODAL_FLOW", "modalAddressForm")]),
    ("addressFormProcessing",
      [("SUCCESS", "contactForm"), ("SKIP_CONTACT", "estimateResults"),
       ("ERROR", "addressFormError")]),
    ("addressFormError", submitAddressTransition),
    ("modalAddressForm", modalSubmitAddressTransition ++ exitTransition),
    ("modalAddressFormProcessing",
      [("SUCCESS", "contactForm"), ("SKIP_CONTACT", "estimateResults"),
       ("ERROR", "modalAddressFormError")] ++ exitTransition),
    ("modalAddressFormError", modalSubmitAddressTransition ++ exitTransition),
    ("contactForm", submitContactTransition ++ exitTransition),
    ("contactFormProcessing",
      [("SUCCESS", "estimateResults"), ("ERROR", "contactFormError")] ++ exitTransition),
    ("contactFormError", submitContactTransition ++ exitTransition),
    ("estimateResults",
      [("SCHEDULE", "scheduleConsultation"), ("REQUEST_COMMUNITY", "requestedCommunity")]
        ++ exitTransition),
    ("scheduleConsultation", exitTransition),
    ("requestedCommunity", exitTransition) ]

/-- `defaultState` of the machine. -/
def machineDefaultState : String := "default"

/-- `createFlowState` initializes `flowState.value` to the machine's default state. -/
def initialFlowState : String := machineDefaultState

/-- The `transition(currentState, event)` method.  Looking up an unknown
`currentState` dereferences `undefined` in JS and throws (`none` here); an
event with no transition from a known state emits one diagnostic record and
returns the current state; otherwise the target state is returned. -/
def transition (currentState event : String) :
    Option (String × List TrackedEvent) :=
  match machineStates.lookup currentState with
  | none => none
  | some stateTransitions =>
    match stateTransitions.lookup event with
    | none =>
        some (currentState, [TrackedEvent.invalidTransition currentState event])
    | some target => some (target, [])

/-- The partial transition function induced by the table (state and event to
target), ignoring diagnostics. -/
def targetOf (s e : String) : Option String :=
  (machineStates.lookup s).bind fun stateTransitions => stateTransitions.lookup e

theorem transition_eq_of_targetOf (s e t : String)
    (h : targetOf s e = some t) : transition s e = some (t, []) := by
  unfold targetOf at h
  unfold transition
  cases hs : machineStates.lookup s with
  | none => simp [hs] at h
  | some ts =>
    simp only [hs, Option.some_bind] at h
    simp [h]

/-!
## Reference state graph (spec section 4.1)

`specReferenceEdges` is written from the spec's reference topology, to be
compared with the table built by the code above.
-/

/-- The spec's reference state graph, one triple per listed edge. -/
def specReferenceEdges : List (String × String × String) :=
  [ ("default", "SUBMIT_ADDRESS", "addressFormProcessing"),
    ("default", "START_MODAL_FLOW", "modalAddressForm"),
    ("addressFormProcessing", "SUCCESS", "contactForm"),
    ("addressFormProcessing", "SKIP_CONTACT", "estimateResults"),
    ("addressFormProcessing", "ERROR", "addressFormError"),
    ("addressFormError", "SUBMIT_ADDRESS", "addressFormProcessing"),
    ("modalAddressForm", "SUBMIT_ADDRESS", "modalAddressFormProcessing"),
    ("modalAddressForm", "EXIT", "default"),
    ("modalAddressFormProcessing", "SUCCESS", "contactForm"),
    ("modalAddressFormProcessing", "SKIP_CONTACT", "estimateResults"),
    ("modalAddressFormProcessing", "ERROR", "modalAddressFormError"),
    ("modalAddressFormProcessing", "EXIT", "default"),
    ("modalAddressFormError", "SUBMIT_ADDRESS", "modalAddressFormProcessing"),
    ("modalAddressFormError", "EXIT", "default"),
    ("contactForm", "SUBMIT_CONTACT", "contactFormProcessing"),
    ("contactForm", "EXIT", "default"),
    ("contactFormProcessing", "SUCCESS", "estimateResults"),
    ("contactFormProcessing", "ERROR", "contactFormError"),
    ("contactFormProcessing", "EXIT", "default"),
    ("contactFormError", "SUBMIT_CONTACT", "contactFormProcessing"),
    ("contactFormError", "EXIT", "default"),
    ("estimateResults", "SCHEDULE", "scheduleConsultation"),
    ("estimateResults", "REQUEST_COMMUNITY", "requestedCommunity"),
    ("estimateResults", "EXIT", "default"),
    ("scheduleConsultation", "EXIT", "default"),
    ("requestedCommunity", "EXIT", "default") ]

theorem mem_of_lookup_eq_some {β : Type} {l : List (String × β)} {k : String}
    {v : β} (h : l.lookup k = some v) : (k, v) ∈ l := by
  rcases List.lookup_eq_some_iff.mp h with ⟨l₁, l₂, rfl, -⟩
  simp

/-- **C1.** For a state present in the table and an event with no transition
from it, `transition` is a no-op that emits exactly one diagnostic record
carrying the current state and the event; for a state absent from the table,
`transition` throws (models the fatal programming error). -/
theorem transition_invalid_event_noop_unknown_state_fatal (s e : String) :
    ((machineStates.lookup s).isSome → targetOf s e = none →
      transition s e = some (s, [TrackedEvent.invalidTransition s e])) ∧
    (machineStates.lookup s = none → transition s e = none) := by
  constructor
  · intro hs he
    unfold targetOf at he
    unfold transition
    cases hs' : machineStates.lookup s with
    | none => rw [hs'] at hs; simp at hs
    | some ts =>
      simp only [hs', Option.some_bind] at he
      simp [he]
  · intro hs
    unfold transition
    rw [hs]

/-- Witness for C1: `contactForm` has no `SCHEDULE` transition (diagnostic
no-op), and the state `bogus` is not in the table (throw). -/
theorem transition_invalid_event_noop_unknown_state_fatal_witness :
    transition "contactForm" "SCHEDULE"
        = some ("contactForm", [TrackedEvent.invalidTransition "contactForm" "SCHEDULE"]) ∧
    transition "bogus" "EXIT" = none := by
  constructor
  · exact (transition_invalid_event_noop_unknown_state_fatal "contactForm" "SCHEDULE").1
      (by decide) (by decide)
  · exact (transition_invalid_event_noop_unknown_state_fatal "bogus" "EXIT").2 (by decide)

theorem lookup_eq_of_mem_of_nodupKeys {β : Type} :
    ∀ {l : List (String × β)}, (l.map Prod.fst).Nodup →
      ∀ {k : String} {v : β}, (k, v) ∈ l → l.lookup k = some v := by
  intro l
  induction l with
  | nil => intro _ k v hm; simp at hm
  | cons p es ih =>
    intro hnd k v hm
    obtain ⟨a, b⟩ := p
    simp only [List.map_cons, List.nodup_cons, List.mem_map] at hnd
    rcases List.mem_cons.mp hm with heq | htail
    · cases heq
      simp [List.lookup_cons]
    · by_cases hk : k = a
      · subst hk
        exact absurd ⟨(k, v), htail, rfl⟩ hnd.1
      · have hba : (k == a) = false := beq_eq_false_iff_ne.mpr hk
        simpa [List.lookup_cons, hba] using ih hnd.2 htail

/-- All (state, event, target) edges of the code's transition table, flattened
in table order. -/
def edgesOfTable : List (String × String × String) :=
  machineStates.flatMap fun p => p.2.map fun q => (p.1, q.1, q.2)

theorem targetOf_eq_some_iff_mem_edges (s e t : String) :
    targetOf s e = some t ↔ (s, e, t) ∈ edgesOfTable := by
  have hnd1 : (machineStates.map Prod.fst).Nodup := by decide
  have hnd2 : ∀ p ∈ machineStates, (p.2.map Prod.fst).Nodup := by decide
  constructor
  · intro h
    unfold targetOf at h
    cases hs : machineStates.lookup s with
    | none => simp [hs] at h
    | some ts =>
      simp only [hs, Option.some_bind] at h
      exact List.mem_flatMap.mpr
        ⟨(s, ts), mem_of_lookup_eq_some hs,
          List.mem_map.mpr ⟨(e, t), mem_of_lookup_eq_some h, rfl⟩⟩
  · intro h
    rcases List.mem_flatMap.mp h with ⟨⟨s', ts⟩, hmem, hmem2⟩
    rcases List.mem_map.mp hmem2 with ⟨⟨e', t'⟩, hq, heq⟩
    obtain ⟨rfl, rfl, rfl⟩ : s' = s ∧ e' = e ∧ t' = t := by
      simpa [Prod.ext_iff] using heq
    unfold targetOf
    rw [lookup_eq_of_mem_of_nodupKeys hnd1 hmem, Option.some_bind,
      lookup_eq_of_mem_of_nodupKeys (hnd2 _ hmem) hq]

theorem transition_eq_some_nil_iff (s e t : String) :
    transition s e = some (t, []) ↔ targetOf s e = some t := by
  unfold transition targetOf
  cases hs : machineStates.lookup s with
  | none => simp
  | some ts =>
    dsimp only [Option.some_bind]
    cases he : ts.lookup e with
    | none => simp
    | some tgt => simp

/-- **C2.** The transition table realizes exactly the reference state graph:
`transition` succeeds silently precisely on the listed edges (so no other
(state, event) pair has a defined transition), the initial state is `default`,
every defined `EXIT` transition targets `default`, and `default` itself has no
`EXIT` transition. -/
theorem flow_table_realizes_spec_graph :
    initialFlowState = "default" ∧
    (∀ s e t, transition s e = some (t, []) ↔ (s, e, t) ∈ specReferenceEdges) ∧
    (∀ s t, targetOf s "EXIT" = some t → t = "default") ∧
    targetOf "default" "EXIT" = none := by
  have hedges : edgesOfTable = specReferenceEdges := by decide
  refine ⟨rfl, ?_, ?_, by decide⟩
  · intro s e t
    rw [transition_eq_some_nil_iff, targetOf_eq_some_iff_mem_edges, hedges]
  · intro s t h
    have hm := (targetOf_eq_some_iff_mem_edges s "EXIT" t).mp h
    rw [hedges] at hm
    simp only [specReferenceEdges, List.mem_cons, Prod.mk.injEq, List.not_mem_nil,
      or_false] at hm
    tauto

/-- Witness for C2: the `SCHEDULE` edge out of `estimateResults`, and the
`EXIT` transition from `scheduleConsultation` reaching `default`. -/
theorem flow_table_realizes_spec_graph_witness :
    transition "estimateResults" "SCHEDULE" = some ("scheduleConsultation", []) ∧
    ("default" : String) = "default" := by
  constructor
  · exact (flow_table_realizes_spec_graph.2.1 "estimateResults" "SCHEDULE"
      "scheduleConsultation").mpr (by decide)
  · exact flow_table_realizes_spec_graph.2.2.1 "scheduleConsultation" "default" (by decide)

/-!
## View-model data (createAddressViewModel / createContactViewModel /
createEstimateViewModel, src/index.js)
-/

/-- One match from the Regrid typeahead API. -/
structure RegridMatch where
  address : String
  context : String
  ll_uuid : String
  score : Int
  deriving DecidableEq, Repr

/-- Parcel details kept by the flow (`filterParcelDetails` output shape). -/
structure ParcelDetails where
  apn : String
  jurisdiction : String
  address : String
  city : String
  state : String
  zip : String
  deriving DecidableEq, Repr

/-- The addressViewModel store (UI-only button text elided). -/
structure AddressViewModel where
  inputValue : String
  «matches» : List RegridMatch
  keyboardNavIndex : Int
  selectedMatch : Option RegridMatch
  parcelDetails : Option ParcelDetails
  errorMessage : String
  deriving DecidableEq, Repr

/-- Getter `isSelected`: the selected-match object is non-empty and its
`ll_uuid` is truthy. -/
def AddressViewModel.isSelected (vm : AddressViewModel) : Bool :=
  match vm.selectedMatch with
  | none => false
  | some m => m.ll_uuid ≠ ""

/-- Getter `hasParcelDetails`: the parcel object is non-empty and both
`jurisdiction` and `apn` are truthy. -/
def AddressViewModel.hasParcelDetails (vm : AddressViewModel) : Bool :=
  match vm.parcelDetails with
  | none => false
  | some p => p.jurisdiction ≠ "" && p.apn ≠ ""

/-- The contactViewModel store (UI-only button text elided). -/
structure ContactViewModel where
  firstName : String
  lastName : String
  email : String
  phone : String
  desiredTimeline : String
  errorMessage : String
  isSubmitted : Bool
  lotAnalysisStep : String
  deriving DecidableEq, Repr

/-- The estimateViewModel store: `jurisdiction.status` and the
`estimate.low` / `estimate.high` numbers (null until fetched). -/
structure EstimateViewModel where
  jurisdictionStatus : String
  estimateLow : Option Int
  estimateHigh : Option Int
  deriving DecidableEq, Repr

/-- Getter `hasResults`: the jurisdiction status string is truthy. -/
def EstimateViewModel.hasResults (vm : EstimateViewModel) : Bool :=
  vm.jurisdictionStatus ≠ ""

/-- `estimateViewModel.init()`: empty status, null estimate bounds. -/
def estimateViewModelInit : EstimateViewModel :=
  { jurisdictionStatus := "", estimateLow := none, estimateHigh := none }

/-- Response shape of the estimate endpoint consumed by `submitAddress`. -/
structure EstimateResults where
  jurisdictionStatus : String
  low : Option Int
  high : Option Int
  deriving DecidableEq, Repr

/-- The mutable state shared by all stores: the three view-models plus
`flowState.value`. -/
structure World where
  address : AddressViewModel
  contact : ContactViewModel
  estimate : EstimateViewModel
  flow : String
  deriving DecidableEq, Repr

/-!
## Address view-model operations (src/index.js lines 114-201)
-/

/-- `handleMatchSelection(match)`: commit the selection, rewrite the input
text, clear the match list and keyboard index, track the selection. -/
def handleMatchSelection (vm : AddressViewModel) (m : RegridMatch) :
    AddressViewModel × List TrackedEvent :=
  ({ vm with
      selectedMatch := some m,
      inputValue := m.address ++ ", " ++ m.context,
      «matches» := [],
      keyboardNavIndex := -1 },
   [TrackedEvent.addressSelected m.address m.context m.ll_uuid])

/-- `handleKeydown(event)`, keyed on `event.key`.  Indexing
`this.matches[this.keyboardNavIndex]` outside the list bounds yields
`undefined` in JS and `handleMatchSelection(undefined)` then throws, hence
the `none` results. -/
def handleKeydown (vm : AddressViewModel) (key : String) :
    Option (AddressViewModel × List TrackedEvent) :=
  if key ≠ "Enter" ∧ key ≠ "ArrowUp" ∧ key ≠ "ArrowDown" then
    some (vm, [])
  else if vm.isSelected ∨ vm.«matches».length = 0 then
    some (vm, [])
  else if key = "Enter" ∧ vm.keyboardNavIndex ≠ -1 then
    if 0 ≤ vm.keyboardNavIndex then
      match vm.«matches»[vm.keyboardNavIndex.toNat]? with
      | some m => some (handleMatchSelection vm m)
      | none => none
    else none
  else if key = "ArrowUp" then
    some ({ vm with keyboardNavIndex :=
      if vm.keyboardNavIndex ≤ -1 then (vm.«matches».length : Int) - 1
      else vm.keyboardNavIndex - 1 }, [])
  else if key = "ArrowDown" then
    some ({ vm with keyboardNavIndex :=
      if vm.keyboardNavIndex ≥ (vm.«matches».length : Int) - 1 then -1
      else vm.keyboardNavIndex + 1 }, [])
  else
    some (vm, [])

/-- Error message set by `handleInput` when the typeahead lookup fails. -/
def addressLookupErrorMessage : String :=
  "There was an error finding your address. Please try again, or contact us for help."

/-- First invalidation step of `handleInput`: clear `selectedMatch` if a
match is selected. -/
def clearSelectedIfSet (a : AddressViewModel) : AddressViewModel :=
  if a.isSelected then { a with selectedMatch := none } else a

/-- Second invalidation step of `handleInput`: clear `parcelDetails` if
present. -/
def clearParcelIfSet (a : AddressViewModel) : AddressViewModel :=
  if a.hasParcelDetails then { a with parcelDetails := none } else a

/-- The four invalidation steps at the top of `handleInput`: clear any
previously selected/submitted address, parcel details, estimate results, and
contact-submitted flag. -/
def invalidateDownstream (w : World) : World :=
  { w with
    address := clearParcelIfSet (clearSelectedIfSet w.address),
    estimate := if w.estimate.hasResults then estimateViewModelInit else w.estimate,
    contact := if w.contact.isSubmitted then { w.contact with isSubmitted := false }
               else w.contact }

/-- `handleInput()`: invalidate downstream state (selection, parcel,
estimate, contact-submitted flag) where set, then fetch address matches;
on lookup failure set the error message and fire `ERROR`. -/
def handleInput (w : World) (fetchResult : Except Unit (List RegridMatch)) :
    Option (World × List TrackedEvent × List NetworkCall) :=
  let w1 := invalidateDownstream w
  match fetchResult with
  | .ok ms =>
      some ({ w1 with address := { w1.address with «matches» := ms } }, [],
        [NetworkCall.fetchAddressMatches])
  | .error _ =>
      match transition w1.flow "ERROR" with
      | none => none
      | some (f, evs) =>
          some ({ w1 with
              address := { w1.address with errorMessage := addressLookupErrorMessage },
              flow := f }, evs,
            [NetworkCall.fetchAddressMatches])

/-- **C7.** `handleKeydown` intercepts only ArrowUp/ArrowDown/Enter, and only
while no match is selected and the match list is non-empty; ArrowUp wraps from
index −1 to the last match and otherwise decrements; ArrowDown wraps from the
last match to −1 and otherwise increments; Enter with a highlighted index
selects the match at that index; everything else leaves all state untouched. -/
theorem handleKeydown_intercepts_wraps_selects (vm : AddressViewModel) (key : String) :
    (key ≠ "Enter" → key ≠ "ArrowUp" → key ≠ "ArrowDown" →
      handleKeydown vm key = some (vm, [])) ∧
    (vm.isSelected = true ∨ vm.«matches».length = 0 →
      handleKeydown vm key = some (vm, [])) ∧
    (vm.isSelected = false → vm.«matches».length ≠ 0 →
        -1 ≤ vm.keyboardNavIndex →
      handleKeydown vm "ArrowUp" =
        some ({ vm with keyboardNavIndex :=
          if vm.keyboardNavIndex = -1 then (vm.«matches».length : Int) - 1
          else vm.keyboardNavIndex - 1 }, [])) ∧
    (vm.isSelected = false → vm.«matches».length ≠ 0 →
        vm.keyboardNavIndex ≤ (vm.«matches».length : Int) - 1 →
      handleKeydown vm "ArrowDown" =
        some ({ vm with keyboardNavIndex :=
          if vm.keyboardNavIndex = (vm.«matches».length : Int) - 1 then -1
          else vm.keyboardNavIndex + 1 }, [])) ∧
    (vm.isSelected = false → vm.«matches».length ≠ 0 →
        0 ≤ vm.keyboardNavIndex → vm.keyboardNavIndex ≠ -1 →
      ∀ m, vm.«matches»[vm.keyboardNavIndex.toNat]? = some m →
        handleKeydown vm "Enter" = some (handleMatchSelection vm m)) := by
  refine ⟨?_, ?_, ?_, ?_, ?_⟩
  · intro h1 h2 h3
    simp [handleKeydown, h1, h2, h3]
  · intro h
    unfold handleKeydown
    split_ifs <;> simp_all
  · intro hsel hlen hge
    have hiff : vm.keyboardNavIndex ≤ -1 ↔ vm.keyboardNavIndex = -1 := by omega
    simp [handleKeydown, hsel, hlen, hiff]
  · intro hsel hlen hle
    have hiff : (vm.«matches».length : Int) - 1 ≤ vm.keyboardNavIndex ↔
        vm.keyboardNavIndex = (vm.«matches».length : Int) - 1 := by omega
    simp [handleKeydown, hsel, hlen, ge_iff_le, hiff]
  · intro hsel hlen h0 hne m hm
    simp [handleKeydown, hsel, hlen, h0, hne, hm]

/-- A three-match list for exercising keyboard navigation. -/
def kbNavVM : AddressViewModel :=
  { inputValue := ""
    «matches» :=
      [ { address := "1 First St", context := "Sacramento, CA", ll_uuid := "u1", score := 3 },
        { address := "2 Second St", context := "Sacramento, CA", ll_uuid := "u2", score := 2 },
        { address := "3 Third St", context := "Sacramento, CA", ll_uuid := "u3", score := 1 } ]
    keyboardNavIndex := -1
    selectedMatch := none
    parcelDetails := none
    errorMessage := "" }

/-- The second entry of `kbNavVM.«matches»`. -/
def kbSecondMatch : RegridMatch :=
  { address := "2 Second St", context := "Sacramento, CA", ll_uuid := "u2", score := 2 }

/-- Witness for C7: with 3 matches, ArrowUp from −1 yields 2; ArrowDown from 2
yields −1; Enter at index 1 selects the second match; `a` is not intercepted. -/
theorem handleKeydown_intercepts_wraps_selects_witness :
    handleKeydown kbNavVM "ArrowUp" = some ({ kbNavVM with keyboardNavIndex := 2 }, []) ∧
    handleKeydown { kbNavVM with keyboardNavIndex := 2 } "ArrowDown"
      = some ({ kbNavVM with keyboardNavIndex := -1 }, []) ∧
    handleKeydown { kbNavVM with keyboardNavIndex := 1 } "Enter"
      = some (handleMatchSelection kbNavVM kbSecondMatch) ∧
    handleKeydown kbNavVM "a" = some (kbNavVM, []) := by
  refine ⟨?_, ?_, ?_, ?_⟩
  · simpa using
      (handleKeydown_intercepts_wraps_selects kbNavVM "ArrowUp").2.2.1
        (by decide) (by decide) (by decide)
  · simpa using
      (handleKeydown_intercepts_wraps_selects { kbNavVM with keyboardNavIndex := 2 }
        "ArrowDown").2.2.2.1 (by decide) (by decide) (by decide)
  · simpa [handleMatchSelection, kbNavVM, kbSecondMatch] using
      (handleKeydown_intercepts_wraps_selects { kbNavVM with keyboardNavIndex := 1 }
        "Enter").2.2.2.2 (by decide) (by decide) (by decide) (by decide) kbSecondMatch
        (by decide)
  · exact (handleKeydown_intercepts_wraps_selects kbNavVM "a").1
      (by decide) (by decide) (by decide)

theorem isSelected_congr {a b : AddressViewModel}
    (h : a.selectedMatch = b.selectedMatch) : a.isSelected = b.isSelected := by
  unfold AddressViewModel.isSelected
  rw [h]

theorem hasParcelDetails_congr {a b : AddressViewModel}
    (h : a.parcelDetails = b.parcelDetails) :
    a.hasParcelDetails = b.hasParcelDetails := by
  unfold AddressViewModel.hasParcelDetails
  rw [h]

theorem clearSelectedIfSet_isSelected (a : AddressViewModel) :
    (clearSelectedIfSet a).isSelected = false := by
  unfold clearSelectedIfSet
  cases hs : a.isSelected with
  | true => simp [hs, AddressViewModel.isSelected]
  | false => simp [hs]

theorem clearParcelIfSet_hasParcelDetails (a : AddressViewModel) :
    (clearParcelIfSet a).hasParcelDetails = false := by
  unfold clearParcelIfSet
  cases hp : a.hasParcelDetails with
  | true => simp [hp, AddressViewModel.hasParcelDetails]
  | false => simp [hp]

theorem clearParcelIfSet_selectedMatch (a : AddressViewModel) :
    (clearParcelIfSet a).selectedMatch = a.selectedMatch := by
  unfold clearParcelIfSet
  split <;> rfl

theorem invalidateDownstream_isSelected (w : World) :
    (invalidateDownstream w).address.isSelected = false := by
  unfold invalidateDownstream
  dsimp only
  rw [isSelected_congr (clearParcelIfSet_selectedMatch _)]
  exact clearSelectedIfSet_isSelected _

theorem invalidateDownstream_hasParcelDetails (w : World) :
    (invalidateDownstream w).address.hasParcelDetails = false := by
  unfold invalidateDownstream
  dsimp only
  exact clearParcelIfSet_hasParcelDetails _

theorem invalidateDownstream_hasResults (w : World) :
    (invalidateDownstream w).estimate.hasResults = false := by
  unfold invalidateDownstream
  dsimp only
  cases hr : w.estimate.hasResults with
  | true => simp [hr, EstimateViewModel.hasResults, estimateViewModelInit]
  | false => simp [hr]

theorem invalidateDownstream_isSubmitted (w : World) :
    (invalidateDownstream w).contact.isSubmitted = false := by
  unfold invalidateDownstream
  dsimp only
  cases hc : w.contact.isSubmitted with
  | true => simp [hc]
  | false => simp [hc]

/-- **C8.** For every match, `handleMatchSelection(match)` followed by
`handleInput` leaves `isSelected` and `hasParcelDetails` false and resets the
estimate results and the contact-submitted flag: the cascading invalidation on
any address-input change. -/
theorem handleInput_after_selection_resets (w : World) (m : RegridMatch)
    (r : Except Unit (List RegridMatch)) (w' : World) (evs : List TrackedEvent)
    (calls : List NetworkCall)
    (h : handleInput { w with address := (handleMatchSelection w.address m).1 } r
        = some (w', evs, calls)) :
    w'.address.isSelected = false ∧ w'.address.hasParcelDetails = false ∧
    w'.estimate.hasResults = false ∧ w'.contact.isSubmitted = false := by
  unfold handleInput at h
  dsimp only at h
  cases r with
  | ok ms =>
    simp only [Option.some.injEq, Prod.mk.injEq] at h
    obtain ⟨hw, -, -⟩ := h
    subst hw
    refine ⟨?_, ?_, ?_, ?_⟩
    · exact (isSelected_congr rfl).trans (invalidateDownstream_isSelected _)
    · exact (hasParcelDetails_congr rfl).trans (invalidateDownstream_hasParcelDetails _)
    · exact invalidateDownstream_hasResults _
    · exact invalidateDownstream_isSubmitted _
  | error e =>
    cases htr : transition
        (invalidateDownstream { w with address := (handleMatchSelection w.address m).1 }).flow
        "ERROR" with
    | none =>
      rw [htr] at h
      simp at h
    | some p =>
      obtain ⟨f, evs2⟩ := p
      rw [htr] at h
      simp only [Option.some.injEq, Prod.mk.injEq] at h
      obtain ⟨hw, -, -⟩ := h
      subst hw
      refine ⟨?_, ?_, ?_, ?_⟩
      · exact (isSelected_congr rfl).trans (invalidateDownstream_isSelected _)
      · exact (hasParcelDetails_congr rfl).trans (invalidateDownstream_hasParcelDetails _)
      · exact invalidateDownstream_hasResults _
      · exact invalidateDownstream_isSubmitted _

/-- A fully populated parcel record. -/
def sampleParcel : ParcelDetails :=
  { apn := "123-456-789", jurisdiction := "Sacramento", address := "9 Oak St",
    city := "Davis", state := "CA", zip := "95616" }

/-- A typeahead match for the witness runs. -/
def c8Match : RegridMatch :=
  { address := "9 Oak St", context := "Davis, CA", ll_uuid := "uu-9", score := 7 }

/-- A session with parcel, estimate and submitted contact all present. -/
def c8World : World :=
  { address :=
      { inputValue := "9 Oak"
        «matches» := [c8Match]
        keyboardNavIndex := 0
        selectedMatch := none
        parcelDetails := some sampleParcel
        errorMessage := "" }
    contact :=
      { firstName := "Ada"
        lastName := "Lovelace"
        email := "ada@example.com"
        phone := "915550000"
        desiredTimeline := "now"
        errorMessage := ""
        isSubmitted := true
        lotAnalysisStep := "Checking..." }
    estimate :=
      { jurisdictionStatus := "active"
        estimateLow := some 100
        estimateHigh := some 200 }
    flow := "contactForm" }

/-- The state `c8World` reaches after selecting `c8Match` and then editing the
input (successful empty typeahead response). -/
def c8Result : World :=
  { address :=
      { inputValue := "9 Oak St, Davis, CA"
        «matches» := []
        keyboardNavIndex := -1
        selectedMatch := none
        parcelDetails := none
        errorMessage := "" }
    contact :=
      { firstName := "Ada"
        lastName := "Lovelace"
        email := "ada@example.com"
        phone := "915550000"
        desiredTimeline := "now"
        errorMessage := ""
        isSubmitted := false
        lotAnalysisStep := "Checking..." }
    estimate := estimateViewModelInit
    flow := "contactForm" }

/-- Witness for C8 at a concrete session. -/
theorem handleInput_after_selection_resets_witness :
    c8Result.address.isSelected = false ∧ c8Result.address.hasParcelDetails = false ∧
    c8Result.estimate.hasResults = false ∧ c8Result.contact.isSubmitted = false :=
  handleInput_after_selection_resets c8World c8Match (Except.ok []) c8Result []
    [NetworkCall.fetchAddressMatches] (by decide)

/-!
## Address submission (submitAddress, src/index.js lines 210-314)
-/

/-- Error message set by the catch block of `submitAddress`. -/
def addressSubmitErrorMessage : String :=
  "There was an error processing your address. Please try again, or contact us for help."

/-- The catch block of `submitAddress`: set the error message, fire `ERROR`,
track the failure.  (A throw out of the catch block itself — unknown flow
state — propagates.) -/
def submitAddressCatch (w : World) (evs : List TrackedEvent)
    (calls : List NetworkCall) :
    Option (World × List TrackedEvent × List NetworkCall) :=
  match transition w.flow "ERROR" with
  | none => none
  | some (f2, evs2) =>
      some ({ w with
          address := { w.address with errorMessage := addressSubmitErrorMessage },
          flow := f2 },
        evs ++ evs2 ++ [TrackedEvent.addressSubmissionFailed], calls)

/-- Tail of the `submitAddress` try block: fire `SUCCESS` and track; a thrown
transition would be caught by the surrounding catch. -/
def submitAddressSuccessStep (w : World) (evs : List TrackedEvent)
    (calls : List NetworkCall) :
    Option (World × List TrackedEvent × List NetworkCall) :=
  match transition w.flow "SUCCESS" with
  | none => submitAddressCatch w evs calls
  | some (f, evs2) =>
      some ({ w with flow := f },
        evs ++ evs2 ++ [TrackedEvent.addressSubmissionSucceeded], calls)

/-- Estimate step of `submitAddress`: fetch the estimate if results are
missing, then proceed to `SUCCESS` (or the catch on failure). -/
def submitAddressEstimateStep (w : World) (evs : List TrackedEvent)
    (calls : List NetworkCall) (estimateResp : Except Unit EstimateResults) :
    Option (World × List TrackedEvent × List NetworkCall) :=
  if w.estimate.hasResults then submitAddressSuccessStep w evs calls
  else
    match estimateResp with
    | .error _ =>
        submitAddressCatch w evs (calls ++ [NetworkCall.fetchEstimateResults])
    | .ok r =>
        submitAddressSuccessStep
          { w with estimate :=
              { jurisdictionStatus := r.jurisdictionStatus
                estimateLow := r.low
                estimateHigh := r.high } }
          evs (calls ++ [NetworkCall.fetchEstimateResults])

/-- `submitAddress(options)`: debounce while processing; clear the error
message; fire `SUBMIT_ADDRESS`; track; then either `SKIP_CONTACT` when parcel,
estimate and a prior contact submission are all present, or fetch the missing
parcel details and estimate sequentially and fire `SUCCESS`; any failure is
caught, sets the error message and fires `ERROR`. -/
def submitAddress (w : World) (parcelResp : Except Unit ParcelDetails)
    (estimateResp : Except Unit EstimateResults) :
    Option (World × List TrackedEvent × List NetworkCall) :=
  if w.flow = "addressFormProcessing" ∨ w.flow = "modalAddressFormProcessing" then
    some (w, [], [])
  else
    match transition w.flow "SUBMIT_ADDRESS" with
    | none => none
    | some (f1, evs1) =>
      let w1 : World :=
        { w with address := { w.address with errorMessage := "" }, flow := f1 }
      let evs := evs1 ++ [TrackedEvent.addressSubmitted]
      if w1.address.hasParcelDetails ∧ w1.estimate.hasResults ∧
          w1.contact.isSubmitted then
        match transition w1.flow "SKIP_CONTACT" with
        | none => submitAddressCatch w1 evs []
        | some (f2, evs2) => some ({ w1 with flow := f2 }, evs ++ evs2, [])
      else
        if w1.address.hasParcelDetails then
          submitAddressEstimateStep w1 evs [] estimateResp
        else
          match parcelResp with
          | .error _ => submitAddressCatch w1 evs [NetworkCall.fetchParcelDetails]
          | .ok pd =>
              submitAddressEstimateStep
                { w1 with address := { w1.address with parcelDetails := some pd } }
                evs [NetworkCall.fetchParcelDetails] estimateResp

theorem hasParcelDetails_set_err (a : AddressViewModel) (s : String) :
    ({ a with errorMessage := s } : AddressViewModel).hasParcelDetails
      = a.hasParcelDetails := rfl

theorem hasResults_set (e : EstimateViewModel) :
    ({ e with } : EstimateViewModel).hasResults = e.hasResults := rfl

/-- **C3.** After the `SUBMIT_ADDRESS` transition from the default state: if
parcel details, estimate results and a prior contact submission are all
present, `SKIP_CONTACT` fires (reaching `estimateResults`) with no fetch;
otherwise the missing parcel details and then the missing estimate are fetched
sequentially, after which `SUCCESS` fires (reaching `contactForm`). -/
theorem submitAddress_skip_or_sequential_fetch (w : World)
    (pr : Except Unit ParcelDetails) (er : Except Unit EstimateResults)
    (hflow : w.flow = "default") :
    (w.address.hasParcelDetails = true → w.estimate.hasResults = true →
        w.contact.isSubmitted = true →
      submitAddress w pr er =
        some ({ w with
            address := { w.address with errorMessage := "" }
            flow := "estimateResults" },
          [TrackedEvent.addressSubmitted], [])) ∧
    (∀ pd r, pr = .ok pd → er = .ok r →
        ¬(w.address.hasParcelDetails = true ∧ w.estimate.hasResults = true ∧
          w.contact.isSubmitted = true) →
      submitAddress w pr er =
        some ({ w with
            address :=
              { w.address with
                errorMessage := ""
                parcelDetails :=
                  if w.address.hasParcelDetails then w.address.parcelDetails
                  else some pd }
            estimate :=
              if w.estimate.hasResults then w.estimate
              else
                { jurisdictionStatus := r.jurisdictionStatus
                  estimateLow := r.low
                  estimateHigh := r.high }
            flow := "contactForm" },
          [TrackedEvent.addressSubmitted, TrackedEvent.addressSubmissionSucceeded],
          (if w.address.hasParcelDetails then [] else [NetworkCall.fetchParcelDetails]) ++
          (if w.estimate.hasResults then [] else [NetworkCall.fetchEstimateResults]))) := by
  have t1 : transition "default" "SUBMIT_ADDRESS" = some ("addressFormProcessing", []) := by
    decide
  have t2 : transition "addressFormProcessing" "SKIP_CONTACT"
      = some ("estimateResults", []) := by decide
  have t3 : transition "addressFormProcessing" "SUCCESS" = some ("contactForm", []) := by
    decide
  constructor
  · intro h1 h2 h3
    have h1' : ({ w.address with errorMessage := "" } : AddressViewModel).hasParcelDetails
        = true := (hasParcelDetails_congr rfl).trans h1
    simp [submitAddress, hflow, h1', h2, h3, t1, t2]
  · intro pd r hpr her hnot
    subst hpr; subst her
    have h1' : ({ w.address with errorMessage := "" } : AddressViewModel).hasParcelDetails
        = w.address.hasParcelDetails := hasParcelDetails_congr rfl
    cases hpd : w.address.hasParcelDetails with
    | true =>
      cases hres : w.estimate.hasResults with
      | true =>
        have hsub : w.contact.isSubmitted = false := by
          rcases Bool.eq_false_or_eq_true w.contact.isSubmitted with h | h
          · exact absurd ⟨hpd, hres, h⟩ hnot
          · exact h
        simp [submitAddress, submitAddressEstimateStep, submitAddressSuccessStep,
          hflow, h1', hpd, hres, hsub, t1, t3]
      | false =>
        simp [submitAddress, submitAddressEstimateStep, submitAddressSuccessStep,
          hflow, h1', hpd, hres, t1, t3]
    | false =>
      cases hres : w.estimate.hasResults with
      | true =>
        simp [submitAddress, submitAddressEstimateStep, submitAddressSuccessStep,
          hflow, h1', hpd, hres, t1, t3]
      | false =>
        simp [submitAddress, submitAddressEstimateStep, submitAddressSuccessStep,
          hflow, h1', hpd, hres, t1, t3]

/-- A session at `default` with parcel, estimate and contact all cached. -/
def c3World : World := { c8World with flow := "default" }

/-- A concrete estimate-endpoint response. -/
def c3Estimate : EstimateResults :=
  { jurisdictionStatus := "active", low := some 150000, high := some 250000 }

/-- Witness for C3: re-submitting with everything cached skips the contact
form with no network call. -/
theorem submitAddress_skip_or_sequential_fetch_witness :
    submitAddress c3World (Except.ok sampleParcel) (Except.ok c3Estimate)
      = some ({ c3World with
          address := { c3World.address with errorMessage := "" }
          flow := "estimateResults" },
        [TrackedEvent.addressSubmitted], []) :=
  (submitAddress_skip_or_sequential_fetch c3World _ _ rfl).1
    (by decide) (by decide) (by decide)

/-- **C9.** If the parcel-details fetch throws inside `submitAddress`, the
user-facing error message is set, `ERROR` fires (reaching
`addressFormError` from `addressFormProcessing`), and the estimate fetch is
never invoked in that submission. -/
theorem submitAddress_parcel_failure_no_estimate_call (w : World)
    (er : Except Unit EstimateResults)
    (hflow : w.flow = "default") (hpd : w.address.hasParcelDetails = false) :
    submitAddress w (.error ()) er =
      some ({ w with
          address := { w.address with errorMessage := addressSubmitErrorMessage }
          flow := "addressFormError" },
        [TrackedEvent.addressSubmitted, TrackedEvent.addressSubmissionFailed],
        [NetworkCall.fetchParcelDetails]) ∧
    NetworkCall.fetchEstimateResults ∉ ([NetworkCall.fetchParcelDetails] : List NetworkCall) := by
  have t1 : transition "default" "SUBMIT_ADDRESS" = some ("addressFormProcessing", []) := by
    decide
  have terr : transition "addressFormProcessing" "ERROR" = some ("addressFormError", []) := by
    decide
  have h1' : ({ w.address with errorMessage := "" } : AddressViewModel).hasParcelDetails
      = w.address.hasParcelDetails := hasParcelDetails_congr rfl
  constructor
  · simp [submitAddress, submitAddressCatch, hflow, h1', hpd, t1, terr]
  · decide

/-- A session at `default` with no parcel details cached. -/
def c9World : World :=
  { c8World with
    flow := "default"
    address := { c8World.address with parcelDetails := none } }

/-- Witness for C9 at a concrete session. -/
theorem submitAddress_parcel_failure_no_estimate_call_witness :
    submitAddress c9World (.error ()) (Except.ok c3Estimate)
      = some ({ c9World with
          address := { c9World.address with errorMessage := addressSubmitErrorMessage }
          flow := "addressFormError" },
        [TrackedEvent.addressSubmitted, TrackedEvent.addressSubmissionFailed],
        [NetworkCall.fetchParcelDetails]) ∧
    NetworkCall.fetchEstimateResults ∉ ([NetworkCall.fetchParcelDetails] : List NetworkCall) :=
  submitAddress_parcel_failure_no_estimate_call c9World (Except.ok c3Estimate) rfl (by decide)

/-!
## Contact submission (submitContact, src/index.js lines 387-487, and
sequenceLotAnalysisSteps, lines 1045-1062)

The `Promise.all` join of the simulated analysis sequence and the
`createLead` network call is modelled with explicit durations: the sequence
takes `analysisSteps.length * analysisStepDurationMs` milliseconds, the
network call takes `netDurationMs`, and the join resolves at their maximum.
-/

/-- Error message set by the catch block of `submitContact`. -/
def contactSubmitErrorMessage : String :=
  "There was an error processing your info. Please try again, or contact us for help."

/-- The `analysisSteps` sequenced by `sequenceLotAnalysisSteps`. -/
def analysisSteps : List String :=
  [ "Checking flood zones...",
    "Checking fire hazard zones...",
    "Checking zoning district...",
    "Checking lot shape & size..." ]

/-- The 1.5 s wait between analysis steps. -/
def analysisStepDurationMs : Nat := 1500

/-- Total duration of the simulated analysis sequence. -/
def sequenceLotAnalysisDurationMs : Nat :=
  analysisSteps.length * analysisStepDurationMs

/-- Net effect of `sequenceLotAnalysisSteps` on the contact view-model: the
`lotAnalysisStep` field ends at the last step of the sequence. -/
def sequenceLotAnalysisFinalStep (c : ContactViewModel) : ContactViewModel :=
  { c with lotAnalysisStep := analysisSteps.getLastD c.lotAnalysisStep }

/-- Outcome of `submitContact`: the final state, the tracked events, the
network calls issued, and the time (ms after submission) at which the
`Promise.all` join resolved, when it did. -/
structure ContactOutcome where
  world : World
  events : List TrackedEvent
  calls : List NetworkCall
  joinCompleteTimeMs : Option Nat
  deriving DecidableEq, Repr

/-- `submitContact(options)`: debounce while processing; clear the error
message; fire `SUBMIT_CONTACT`; track; run the analysis sequence and
`createLead` concurrently and join on both; on joint success mark submitted
and fire `SUCCESS`; on network failure set the error message and fire
`ERROR` (the sequence still finishes in the background). -/
def submitContact (w : World) (netDurationMs : Nat) (netResult : Except Unit Unit) :
    Option ContactOutcome :=
  if w.flow = "contactFormProcessing" then some ⟨w, [], [], none⟩
  else
    match transition w.flow "SUBMIT_CONTACT" with
    | none => none
    | some (f1, evs1) =>
      let w1 : World :=
        { w with contact := { w.contact with errorMessage := "" }, flow := f1 }
      let evs := evs1 ++ [TrackedEvent.contactSubmitted]
      match netResult with
      | .error _ =>
        let c2 := { sequenceLotAnalysisFinalStep w1.contact with
          errorMessage := contactSubmitErrorMessage }
        match transition w1.flow "ERROR" with
        | none => none
        | some (f2, evs2) =>
            some ⟨{ w1 with contact := c2, flow := f2 },
              evs ++ evs2 ++ [TrackedEvent.contactSubmissionFailed],
              [NetworkCall.createLead], none⟩
      | .ok _ =>
        let joinTime := max sequenceLotAnalysisDurationMs netDurationMs
        let c2 := { sequenceLotAnalysisFinalStep w1.contact with isSubmitted := true }
        match transition w1.flow "SUCCESS" with
        | none =>
          -- a throw out of the SUCCESS transition would land in the catch
          -- (unreachable when f1 is a state of the table)
          match transition w1.flow "ERROR" with
          | none => none
          | some (f2, evs2) =>
              some ⟨{ w1 with
                  contact := { c2 with errorMessage := contactSubmitErrorMessage }
                  flow := f2 },
                evs ++ evs2 ++ [TrackedEvent.contactSubmissionFailed],
                [NetworkCall.createLead], some joinTime⟩
        | some (f2, evs2) =>
            some ⟨{ w1 with contact := c2, flow := f2 },
              evs ++ evs2 ++ [TrackedEvent.contactSubmissionSucceeded],
              [NetworkCall.createLead], some joinTime⟩

/-- **C4.** On contact submission the simulated analysis sequence (4 steps of
1.5 s) and the lead-creation call run concurrently with join semantics: the
join resolves at the maximum of the two durations (never before either), and
only then, on joint success, is `isSubmitted` set and `SUCCESS` fired. -/
theorem submitContact_join_not_race (w : World) (d : Nat)
    (hflow : w.flow = "contactForm") :
    submitContact w d (.ok ()) =
      some ⟨{ w with
          contact := { w.contact with
            errorMessage := ""
            isSubmitted := true
            lotAnalysisStep := "Checking lot shape & size..." }
          flow := "estimateResults" },
        [TrackedEvent.contactSubmitted, TrackedEvent.contactSubmissionSucceeded],
        [NetworkCall.createLead],
        some (max sequenceLotAnalysisDurationMs d)⟩ ∧
    sequenceLotAnalysisDurationMs ≤ max sequenceLotAnalysisDurationMs d ∧
    d ≤ max sequenceLotAnalysisDurationMs d ∧
    sequenceLotAnalysisDurationMs = 4 * 1500 := by
  have t1 : transition "contactForm" "SUBMIT_CONTACT"
      = some ("contactFormProcessing", []) := by decide
  have t2 : transition "contactFormProcessing" "SUCCESS"
      = some ("estimateResults", []) := by decide
  refine ⟨?_, Nat.le_max_left _ _, Nat.le_max_right _ _, by decide⟩
  simp [submitContact, hflow, t1, t2, sequenceLotAnalysisFinalStep, analysisSteps,
    List.getLastD]

/-- A session sitting on the contact form. -/
def c4World : World := c8World

/-- Witness for C4 with an 8-second network call: the join resolves at
8000 ms, after both the 6000 ms sequence and the network call. -/
theorem submitContact_join_not_race_witness :
    submitContact c4World 8000 (.ok ()) =
      some ⟨{ c4World with
          contact := { c4World.contact with
            errorMessage := ""
            isSubmitted := true
            lotAnalysisStep := "Checking lot shape & size..." }
          flow := "estimateResults" },
        [TrackedEvent.contactSubmitted, TrackedEvent.contactSubmissionSucceeded],
        [NetworkCall.createLead],
        some (max sequenceLotAnalysisDurationMs 8000)⟩ ∧
    sequenceLotAnalysisDurationMs ≤ max sequenceLotAnalysisDurationMs 8000 ∧
    8000 ≤ max sequenceLotAnalysisDurationMs 8000 ∧
    sequenceLotAnalysisDurationMs = 4 * 1500 :=
  submitContact_join_not_race c4World 8000 rfl

/-- **C6.** Calling `submitAddress` while in `addressFormProcessing` or
`modalAddressFormProcessing`, and `submitContact` while in
`contactFormProcessing`, is a complete no-op: no transition, no network
call, no view-model change. -/
theorem processing_guard_idempotent (w : World)
    (pr : Except Unit ParcelDetails) (er : Except Unit EstimateResults)
    (d : Nat) (nr : Except Unit Unit) :
    ((w.flow = "addressFormProcessing" ∨ w.flow = "modalAddressFormProcessing") →
      submitAddress w pr er = some (w, [], [])) ∧
    (w.flow = "contactFormProcessing" →
      submitContact w d nr = some ⟨w, [], [], none⟩) := by
  constructor
  · intro h
    simp [submitAddress, h]
  · intro h
    simp [submitContact, h]

/-- A session mid address processing. -/
def c6World : World := { c8World with flow := "addressFormProcessing" }

/-- A session mid contact processing. -/
def c6ContactWorld : World := { c8World with flow := "contactFormProcessing" }

/-- Witness for C6: both guards at concrete mid-processing sessions. -/
theorem processing_guard_idempotent_witness :
    submitAddress c6World (Except.ok sampleParcel) (Except.ok c3Estimate)
      = some (c6World, [], []) ∧
    submitContact c6ContactWorld 100 (Except.ok ())
      = some ⟨c6ContactWorld, [], [], none⟩ :=
  ⟨(processing_guard_idempotent c6World (Except.ok sampleParcel) (Except.ok c3Estimate)
      100 (Except.ok ())).1 (Or.inl rfl),
   (processing_guard_idempotent c6ContactWorld (Except.ok sampleParcel)
      (Except.ok c3Estimate) 100 (Except.ok ())).2 rfl⟩

/-!
## Modal helpers (createModalHelpers, src/unnamed/part_000 lines 1319-1383)
-/

/-- Modelled from the spec: the `hasAnyContactDetails` getter of the contact
view-model is defined in `modules/LegacyContactViewModel`, which is not among
the sources; per the spec it holds when any contact field is populated. -/
def hasAnyContactDetails (c : ContactViewModel) : Bool :=
  c.firstName ≠ "" || c.lastName ≠ "" || c.email ≠ "" || c.phone ≠ "" ||
  c.desiredTimeline ≠ ""

/-- Getter `isOpen`: the nine in-modal-flow states. -/
def modalIsOpen (w : World) : Bool :=
  w.flow == "modalAddressForm" || w.flow == "modalAddressFormProcessing" ||
  w.flow == "modalAddressFormError" || w.flow == "contactForm" ||
  w.flow == "contactFormProcessing" || w.flow == "contactFormError" ||
  w.flow == "estimateResults" || w.flow == "scheduleConsultation" ||
  w.flow == "requestedCommunity"

/-- `handleModalClose()` of the modular build: on the contact form with any
contact data, ask for confirmation (`confirmResult` is the value `confirm`
returned); while contact processing, refuse the exit; otherwise fire `EXIT`
and track the close. -/
def handleModalClose (w : World) (confirmResult : Bool) :
    Option (World × List TrackedEvent) :=
  let proceedAfterConfirm :=
    if w.flow = "contactForm" ∧ hasAnyContactDetails w.contact then confirmResult
    else true
  let proceedWithExit :=
    if w.flow = "contactFormProcessing" then false else proceedAfterConfirm
  if proceedWithExit then
    match transition w.flow "EXIT" with
    | none => none
    | some (f, evs) => some ({ w with flow := f }, evs ++ [TrackedEvent.modalClosed])
  else some (w, [])

/-- **C5.** `handleModalClose` applies the exit policy: on the contact form
with any contact field populated, `EXIT` fires only when the confirmation
succeeds; while contact submission is processing the exit is refused and the
flow state never changes; in every other modal state `EXIT` fires
unconditionally. -/
theorem handleModalClose_exit_policy (w : World) (confirmResult : Bool) :
    (w.flow = "contactForm" → hasAnyContactDetails w.contact = true →
      handleModalClose w confirmResult =
        if confirmResult then
          some ({ w with flow := "default" }, [TrackedEvent.modalClosed])
        else some (w, [])) ∧
    (w.flow = "contactFormProcessing" →
      handleModalClose w confirmResult = some (w, [])) ∧
    (modalIsOpen w = true → w.flow ≠ "contactForm" →
        w.flow ≠ "contactFormProcessing" →
      handleModalClose w confirmResult =
        some ({ w with flow := "default" }, [TrackedEvent.modalClosed])) := by
  refine ⟨?_, ?_, ?_⟩
  · intro h1 h2
    have texit : transition "contactForm" "EXIT" = some ("default", []) := by decide
    cases confirmResult with
    | true => simp [handleModalClose, h1, h2, texit]
    | false => simp [handleModalClose, h1, h2]
  · intro h
    simp [handleModalClose, h]
  · intro hopen h1 h2
    have e1 : transition "modalAddressForm" "EXIT" = some ("default", []) := by decide
    have e2 : transition "modalAddressFormProcessing" "EXIT" = some ("default", []) := by
      decide
    have e3 : transition "modalAddressFormError" "EXIT" = some ("default", []) := by decide
    have e4 : transition "contactFormError" "EXIT" = some ("default", []) := by decide
    have e5 : transition "estimateResults" "EXIT" = some ("default", []) := by decide
    have e6 : transition "scheduleConsultation" "EXIT" = some ("default", []) := by decide
    have e7 : transition "requestedCommunity" "EXIT" = some ("default", []) := by decide
    simp only [modalIsOpen, Bool.or_eq_true, beq_iff_eq] at hopen
    rcases hopen with ((((((((h | h) | h) | h) | h) | h) | h) | h) | h)
    all_goals first
      | exact absurd h h1
      | exact absurd h h2
      | simp [handleModalClose, h, e1, e2, e3, e4, e5, e6, e7]

/-- Witness for C5: confirmation-gated exit from the populated contact form,
refusal mid-processing, and unconditional exit from the results screen. -/
theorem handleModalClose_exit_policy_witness :
    handleModalClose c8World true
      = some ({ c8World with flow := "default" }, [TrackedEvent.modalClosed]) ∧
    handleModalClose c8World false = some (c8World, []) ∧
    handleModalClose c6ContactWorld true = some (c6ContactWorld, []) ∧
    handleModalClose { c8World with flow := "estimateResults" } false
      = some ({ c8World with flow := "default" }, [TrackedEvent.modalClosed]) := by
  refine ⟨?_, ?_, ?_, ?_⟩
  · simpa using (handleModalClose_exit_policy c8World true).1 rfl (by decide)
  · simpa using (handleModalClose_exit_policy c8World false).1 rfl (by decide)
  · exact (handleModalClose_exit_policy c6ContactWorld true).2.1 rfl
  · simpa using
      (handleModalClose_exit_policy { c8World with flow := "estimateResults" } false).2.2
        (by decide) (by decide) (by decide)

/-!
## Typeahead result processing (filterSortAndSliceAddressMatches and
compareMatchesScores, src/index.js lines 931-964)
-/

/-- JS line terminators, which `.` does not match in a regex without the
dot-all flag. -/
def isJsLineTerminator (c : Char) : Bool :=
  c = '\n' ∨ c = '\r' ∨ c = ' ' ∨ c = ' '

/-- Whether `address.match(/^[0-9].*[^0-9]$/)` finds a match: first character
a digit, last character not a digit, and no line terminator in between. -/
def matchesShortAddressRegex (s : String) : Bool :=
  match s.data with
  | [] => false
  | c :: rest =>
    match rest.getLast? with
    | none => false
    | some d =>
        c.isDigit && !d.isDigit && rest.dropLast.all fun x => !isJsLineTerminator x

/-- The filter predicate: truthy `ll_uuid`, truthy `address`, and a regex
match. -/
def typeaheadMatchKeep (m : RegridMatch) : Bool :=
  m.ll_uuid ≠ "" && (m.address ≠ "" && matchesShortAddressRegex m.address)

/-- `compareMatchesScores(a, b)`: −1, 1 or 0 by descending score. -/
def compareMatchesScores (a b : RegridMatch) : Int :=
  if a.score > b.score then -1 else if a.score < b.score then 1 else 0

/-- The order realized by a stable JS sort under `compareMatchesScores`:
`a` may precede `b` iff the comparator is non-positive. -/
def matchSortLe (a b : RegridMatch) : Bool :=
  compareMatchesScores a b ≤ 0

/-- `filterSortAndSliceAddressMatches`: filter, sort by descending score
(stable sort, as ES2019 requires), and keep the first 10. -/
def filterSortAndSliceAddressMatches (l : List RegridMatch) : List RegridMatch :=
  ((l.filter typeaheadMatchKeep).mergeSort matchSortLe).take 10

theorem matchSortLe_iff (a b : RegridMatch) :
    matchSortLe a b = true ↔ b.score ≤ a.score := by
  unfold matchSortLe compareMatchesScores
  split_ifs with h1 h2 <;> simp <;> omega

theorem getLast?_cons_of_ne_nil {α : Type} (a : α) {l : List α} (h : l ≠ []) :
    (a :: l).getLast? = l.getLast? := by
  cases l with
  | nil => exact absurd rfl h
  | cons b t => simp

/-- **C10.** The processed match list has at most 10 entries; every retained
entry has a non-empty `ll_uuid` and an address that starts with a digit and
does not end with a digit; and the retained entries are in non-increasing
score order. -/
theorem filterSortAndSlice_bounded_filtered_sorted (l : List RegridMatch) :
    (filterSortAndSliceAddressMatches l).length ≤ 10 ∧
    (∀ m ∈ filterSortAndSliceAddressMatches l,
      m.ll_uuid ≠ "" ∧
      (∃ c cs, m.address.data = c :: cs ∧ c.isDigit = true) ∧
      (∀ d, m.address.data.getLast? = some d → d.isDigit = false)) ∧
    (filterSortAndSliceAddressMatches l).Pairwise fun a b => b.score ≤ a.score := by
  refine ⟨?_, ?_, ?_⟩
  · simp only [filterSortAndSliceAddressMatches, List.length_take]
    exact Nat.min_le_left _ _
  · intro m hm
    have hm' : m ∈ (l.filter typeaheadMatchKeep).mergeSort matchSortLe :=
      List.mem_of_mem_take hm
    have hmem := List.mem_mergeSort.mp hm'
    have hkeep := (List.mem_filter.mp hmem).2
    simp only [typeaheadMatchKeep, Bool.and_eq_true, decide_eq_true_eq] at hkeep
    obtain ⟨huuid, -, hregex⟩ := hkeep
    unfold matchesShortAddressRegex at hregex
    refine ⟨huuid, ?_, ?_⟩
    · cases hd : m.address.data with
      | nil => rw [hd] at hregex; simp at hregex
      | cons c rest =>
        rw [hd] at hregex
        dsimp only at hregex
        cases hl : rest.getLast? with
        | none => rw [hl] at hregex; simp at hregex
        | some d =>
          rw [hl] at hregex
          simp only [Bool.and_eq_true] at hregex
          exact ⟨c, rest, rfl, hregex.1.1⟩
    · intro d' hd'
      cases hd : m.address.data with
      | nil => rw [hd] at hregex; simp at hregex
      | cons c rest =>
        rw [hd] at hregex
        dsimp only at hregex
        cases hl : rest.getLast? with
        | none => rw [hl] at hregex; simp at hregex
        | some d =>
          rw [hl] at hregex
          simp only [Bool.and_eq_true] at hregex
          have hne : rest ≠ [] := by
            intro hnil
            rw [hnil] at hl
            simp at hl
          rw [hd, getLast?_cons_of_ne_nil c hne, hl] at hd'
          obtain rfl : d = d' := by simpa using hd'
          simpa using hregex.1.2
  · have htrans : ∀ a b c : RegridMatch,
        matchSortLe a b → matchSortLe b c → matchSortLe a c := by
      intro a b c hab hbc
      rw [matchSortLe_iff] at hab hbc ⊢
      omega
    have htotal : ∀ a b : RegridMatch, matchSortLe a b || matchSortLe b a := by
      intro a b
      rw [Bool.or_eq_true, matchSortLe_iff, matchSortLe_iff]
      omega
    have hsorted := List.sorted_mergeSort htrans htotal (l.filter typeaheadMatchKeep)
    have htake : List.Sublist (filterSortAndSliceAddressMatches l)
        ((l.filter typeaheadMatchKeep).mergeSort matchSortLe) :=
      List.take_sublist _ _
    exact (List.Pairwise.sublist htake hsorted).imp fun h => (matchSortLe_iff _ _).mp h

/-- The highest-scoring valid entry of `c10List`. -/
def c10Top : RegridMatch :=
  { address := "34 Oak Ave", context := "Davis, CA", ll_uuid := "u-d", score := 8 }

/-- A typeahead response with invalid entries mixed in. -/
def c10List : List RegridMatch :=
  [ c10Top,
    { address := "", context := "Davis, CA", ll_uuid := "u-b", score := 9 },
    { address := "Elm St 12", context := "Davis, CA", ll_uuid := "u-c", score := 9 },
    { address := "7 Pine Rd", context := "Davis, CA", ll_uuid := "", score := 9 },
    { address := "12 Elm St", context := "Davis, CA", ll_uuid := "u-a", score := 5 } ]

/-- Witness for C10 on a concrete response list. -/
theorem filterSortAndSlice_bounded_filtered_sorted_witness :
    (filterSortAndSliceAddressMatches c10List).length ≤ 10 ∧
    c10Top.ll_uuid ≠ "" ∧
    ('e' : Char).isDigit = false ∧
    (filterSortAndSliceAddressMatches c10List).Pairwise (fun a b => b.score ≤ a.score) := by
  have h := filterSortAndSlice_bounded_filtered_sorted c10List
  have hms : (c10List.filter typeaheadMatchKeep).mergeSort matchSortLe
      = c10List.filter typeaheadMatchKeep :=
    List.mergeSort_of_sorted (by decide)
  have hmem : c10Top ∈ filterSortAndSliceAddressMatches c10List := by
    unfold filterSortAndSliceAddressMatches
    rw [hms]
    decide
  refine ⟨h.1, (h.2.1 c10Top hmem).1, ?_, h.2.2⟩
  exact (h.2.1 c10Top hmem).2.2 'e' (by decide)
